import Mathlib

/-!
Verification development for the document ingestion and classification
pipeline (app/gemini_utils.py, app/processing.py, app/docling_utils.py,
app/schemas.py).  The Python code is shallowly embedded: JSON values are an
inductive type, Python dicts are association lists, filesystem paths are
lists of components, and each external collaborator (converter, OCR
extractor, Gemini classifier, deep extractor) is an input of the model,
given as the value it returns or the exception it raises.
-/

/-- Python exceptions that matter to the embedded control flow. -/
inductive PyErr where
  | attributeError
  | valueError
  | injectedFault
deriving Repr, DecidableEq

/-- JSON values, as produced by json.loads on the Gemini reply. -/
inductive Json where
  | null : Json
  | bool : Bool → Json
  | num : Int → Json
  | str : String → Json
  | arr : List Json → Json
  | obj : List (String × Json) → Json

/-- ASCII lowering of a string, modelling str.lower() on the ASCII labels
the classifier compares against. -/
def toLowerStr (s : String) : String :=
  String.mk (s.toList.map Char.toLower)

/-- Whitespace stripping, modelling str.strip() on both ends. -/
def pyStrip (s : String) : String :=
  String.mk (((s.toList.dropWhile Char.isWhitespace).reverse.dropWhile Char.isWhitespace).reverse)

/-- A filesystem path as its list of components (pathlib.Path). -/
abbrev PyPath := List String

/-- Final path component, modelling Path.name. -/
def pyName (p : PyPath) : String := p.getLastD ""

/-- Characters of the name strictly before its last dot, if the name has a
dot; used to model Path.stem. -/
def beforeLastDot (cs : List Char) : Option (List Char) :=
  match cs.reverse.dropWhile (fun c => !(c = '.')) with
  | [] => none
  | _ :: rest => some rest.reverse

/-- Path.stem: the file name without its final extension; a name whose only
dot is the leading one keeps the whole name. -/
def pyStem (name : String) : String :=
  match beforeLastDot name.toList with
  | some pre => if pre.isEmpty then name else String.mk pre
  | none => name

/-- Path.suffix: the final extension including the dot, empty when there is
none. -/
def pySuffix (name : String) : String :=
  String.mk (name.toList.drop (pyStem name).length)

/-- Path.relative_to: the components of the file past the base, when the
base's components lead the file's; none models the ValueError raised
otherwise. -/
def relativeTo (file base : PyPath) : Option PyPath :=
  match file, base with
  | f, [] => some f
  | [], _ :: _ => none
  | f :: fs, b :: bs => if f = b then relativeTo fs bs else none

/-- Required field list of PURCHASE_INVOICE_SCHEMA in app/schemas.py. -/
def PURCHASE_INVOICE_required : List String :=
  ["purchase_invoice_number", "purchase_invoice_date", "currency", "reverse_charge",
   "import_purchase", "vendor", "buyer", "items", "totals", "payment_terms",
   "authorized_signatory"]

/-- Required field list of SALES_INVOICE_SCHEMA in app/schemas.py. -/
def SALES_INVOICE_required : List String :=
  ["sales_invoice_number", "sales_invoice_date", "currency", "reverse_charge",
   "import_sale", "vendor", "buyer", "items", "totals", "payment_terms",
   "authorized_signatory"]

/-- Required field list of RECEIPT_SCHEMA in app/schemas.py. -/
def RECEIPT_required : List String :=
  ["receipt_number", "receipt_date", "receipt_type", "currency", "payment_method",
   "payer", "payee", "amount_paid", "gst_amount", "items", "receipt_status",
   "authorized_signatory"]

/-- Required field list of PURCHASE_ORDER_SCHEMA in app/schemas.py. -/
def PURCHASE_ORDER_required : List String :=
  ["purchase_order_number", "purchase_order_date", "buyer", "supplier", "items",
   "total_amount", "currency", "authorized_signatory"]

/-- Required field list of CHALLAN_SCHEMA in app/schemas.py. -/
def CHALLAN_required : List String :=
  ["challan_number", "challan_date", "challan_type", "vendor", "buyer", "items"]

/-- Required field list of BANK_STATEMENT_SCHEMA in app/schemas.py. -/
def BANK_STATEMENT_required : List String :=
  ["account_holder", "bank_details", "account_summary", "transactions"]

/-- Required field list of SIMPLE_TEXT_SCHEMA in app/schemas.py. -/
def SIMPLE_TEXT_required : List String :=
  ["file_name", "extracted_text"]

/-- SUPPORTED_EXTENSIONS from app/config.py. -/
def SUPPORTED_EXTENSIONS : List String :=
  [".png", ".jpg", ".jpeg", ".pdf", ".doc", ".docx"]

/-- The fallback payload dict built at every validation-failure site of
classify_and_extract_with_gemini: the original full (untruncated) content
under the extracted_text key. -/
def fallbackPayload (content : String) : List (String × Json) :=
  [("extracted_text", Json.str content)]

/-- Whether an optional JSON value is a list (isinstance(x, list)). -/
def isJsonArr : Option Json → Bool
  | some (Json.arr _) => true
  | _ => false

/-- The label the code computes from the parsed Gemini reply
(gemini_utils.py line 109): the document_type key, defaulting to
simple_text, lowered.  none when the reply is not a dict (the
isinstance check re-raises JSONDecodeError) or when document_type holds a
non-string (str.lower() raises AttributeError, caught by the outer
handler). -/
def returnedLabel (j : Json) : Option String :=
  match j with
  | Json.obj kvs =>
    match (kvs.lookup "document_type").getD (Json.str "simple_text") with
    | Json.str s => some (toLowerStr s)
    | _ => none
  | _ => none

/-- The payload the code reads from the parsed Gemini reply
(gemini_utils.py line 110): the extracted_data key, defaulting to an empty
dict. -/
def returnedPayload (j : Json) : Json :=
  match j with
  | Json.obj kvs => (kvs.lookup "extracted_data").getD (Json.obj [])
  | _ => Json.obj []

/-- The required-field check shared by the five schema-checked branches of
classify_and_extract_with_gemini (all(key in extracted_data for key in
SCHEMA["required"])). -/
def checkRequired (label : String) (req : List String) (payload : Json)
    (content : String) : String × List (String × Json) :=
  match payload with
  | Json.obj kvs =>
    if req.all (fun k => (kvs.lookup k).isSome) then (label, kvs)
    else ("simple_text", fallbackPayload content)
  | _ => ("simple_text", fallbackPayload content)

/-- The validation / fallback chain of classify_and_extract_with_gemini
(gemini_utils.py lines 113-152), branch for branch:
bank_statement only checks that the payload is a dict whose transactions
entry is a list; simple_text only checks that the payload is a dict with an
extracted_text key; the five schema labels check their schema's required
list; any other label falls back. -/
def validateBranch (docType : String) (payload : Json) (content : String) :
    String × List (String × Json) :=
  if docType = "bank_statement" then
    match payload with
    | Json.obj kvs =>
      if isJsonArr (kvs.lookup "transactions") then ("bank_statement", kvs)
      else ("simple_text", fallbackPayload content)
    | _ => ("simple_text", fallbackPayload content)
  else if docType = "simple_text" then
    match payload with
    | Json.obj kvs =>
      if (kvs.lookup "extracted_text").isSome then ("simple_text", kvs)
      else ("simple_text", fallbackPayload content)
    | _ => ("simple_text", fallbackPayload content)
  else if docType = "purchase_invoice" then
    checkRequired "purchase_invoice" PURCHASE_INVOICE_required payload content
  else if docType = "sales_invoice" then
    checkRequired "sales_invoice" SALES_INVOICE_required payload content
  else if docType = "receipt" then
    checkRequired "receipt" RECEIPT_required payload content
  else if docType = "purchase_order" then
    checkRequired "purchase_order" PURCHASE_ORDER_required payload content
  else if docType = "challan" then
    checkRequired "challan" CHALLAN_required payload content
  else ("simple_text", fallbackPayload content)

/-- classify_and_extract_with_gemini (gemini_utils.py lines 34-161) over the
decoded Gemini reply.  The reply input is none when the API call raised or
json.loads failed; both code paths return the same fallback pair.  The
content argument is the full primary text: truncation applies only to the
prompt, never to the fallback payload.  The Python function catches every
exception and returns a pair on all paths, which is why this embedding is
total. -/
def classify_and_extract_with_gemini (content : String) (resp : Option Json) :
    String × List (String × Json) :=
  match resp with
  | none => ("simple_text", fallbackPayload content)
  | some j =>
    match returnedLabel j with
    | none => ("simple_text", fallbackPayload content)
    | some docType => validateBranch docType (returnedPayload j) content

/-- extract_full_bank_statement_with_gemini (gemini_utils.py lines 164-215):
the decoded reply dict, or an empty dict when the API call raised, decoding
failed, or the reply was not a dict. -/
def extract_full_bank_statement_with_gemini (resp : Option Json) :
    List (String × Json) :=
  match resp with
  | some (Json.obj kvs) => kvs
  | _ => []

/-- get_pdf_page_count (docling_utils.py lines 198-207): the page count
fitz reports, or 0 when opening or reading the document raised. -/
def get_pdf_page_count (fitzResult : Option Nat) : Nat :=
  match fitzResult with
  | some n => n
  | none => 0

/-- The failure modes of a decoded classifier reply that the code's
validation chain reacts to, stated as a flat disjunction: decode failure,
label unreadable (non-dict reply or non-string document_type), payload not
a dict, a missing schema-required field for the five schema-checked labels,
a missing extracted_text for simple_text, transactions not a list for
bank_statement, or an unknown label. -/
def requiredFieldsChecked (label : String) : Option (List String) :=
  if label = "purchase_invoice" then some PURCHASE_INVOICE_required
  else if label = "sales_invoice" then some SALES_INVOICE_required
  else if label = "receipt" then some RECEIPT_required
  else if label = "purchase_order" then some PURCHASE_ORDER_required
  else if label = "challan" then some CHALLAN_required
  else none

/-- Decision of the failure modes listed at requiredFieldsChecked: true
exactly when the reply fails the validation the code performs for the label
it carries. -/
def respFailsValidation (resp : Option Json) : Bool :=
  match resp with
  | none => true
  | some j =>
    match returnedLabel j with
    | none => true
    | some l =>
      match returnedPayload j with
      | Json.obj kvs =>
        match requiredFieldsChecked l with
        | some req => !(req.all (fun k => (kvs.lookup k).isSome))
        | none =>
          if l = "bank_statement" then !(isJsonArr (kvs.lookup "transactions"))
          else if l = "simple_text" then !((kvs.lookup "extracted_text").isSome)
          else true
      | _ => true

/-- The values the external collaborators hand one pipeline run, each either
the value returned or the exception it raised.  extract_text_from_pdf,
extract_bank_statement_data, classify_and_extract_with_gemini and
extract_full_bank_statement_with_gemini all catch their own exceptions in
the source; the Except wrappers additionally admit every injected fault, so
the theorems below cover a superset of the source's behaviours. -/
structure Env where
  convert : Except PyErr (Option String)
  convertedExists : Bool
  fitzPages : Option Nat
  extractText : Except PyErr String
  geminiResp : Option Json
  bankText : Except PyErr String
  deepResp : Option Json
  writeOk : Bool
  tempExistsAtEnd : Bool
  unlinkOk : Bool

/-- Observable outcome of one process_single_document run: the mkdir target,
the derived output path, the one write performed (if any), which
collaborators were reached, the multi-page flag, the final_json_output
value, and the state of the intermediate temp PDF after the finally
block. -/
structure ProcResult where
  mkdirOn : PyPath
  outPath : PyPath
  written : Option (PyPath × Json)
  textExtractCalled : Bool
  classifierCalled : Bool
  bankCalled : Bool
  deepCalled : Bool
  multiPageFlag : Option Bool
  finalJson : List (String × Json)
  tempAbsentAfter : Bool
  cleanupWarned : Bool

/-- The record at entry to the try block of process_single_document. -/
def baseResult (sub outJson : PyPath) : ProcResult :=
  { mkdirOn := sub, outPath := outJson, written := none,
    textExtractCalled := false, classifierCalled := false, bankCalled := false,
    deepCalled := false, multiPageFlag := none, finalJson := [],
    tempAbsentAfter := false, cleanupWarned := false }

/-- Step 6 of process_single_document (lines 145-151): write the final JSON
when final_json_output is non-empty, skip the save otherwise; a write
failure is an exception caught by the outer handler, so nothing is
recorded. -/
def emit (env : Env) (outJson : PyPath) (r : ProcResult) : ProcResult :=
  if r.finalJson.isEmpty then r
  else if env.writeOk then { r with written := some (outJson, Json.obj r.finalJson) }
  else r

/-- The degraded-empty branch (lines 88-99): write the placeholder record
with the source name and the empty string and stop. -/
def emptyTextResult (env : Env) (fileName : String) (outJson : PyPath)
    (r : ProcResult) : ProcResult :=
  let payload := [("file_name", Json.str fileName), ("extracted_text", Json.str "")]
  let r2 := { r with finalJson := payload }
  if env.writeOk then { r2 with written := some (outJson, Json.obj payload) } else r2

/-- Lines 113-121 of processing.py, entered with the specialized bank text
in hand: the deep extractor runs only when that text is truthy after strip
(Python: full_bank_text and full_bank_text.strip()); an empty text or an
empty deep result falls back to the step-4 payload (the final emptiness
re-check of lines 126-129 is folded in, as it never changes a non-empty
result). -/
def bankDeep (env : Env) (outJson : PyPath) (initialData : List (String × Json))
    (fullText : String) (r3 : ProcResult) : ProcResult :=
  if fullText ≠ "" ∧ pyStrip fullText ≠ "" then
    let r4 := { r3 with deepCalled := true }
    let deepData := extract_full_bank_statement_with_gemini env.deepResp
    emit env outJson
      { r4 with finalJson := if deepData.isEmpty then initialData else deepData }
  else
    emit env outJson { r3 with finalJson := initialData }

/-- The bank_statement branch of step 5 (lines 106-129): multi-page
re-extracts with the bank converter and continues with bankDeep; an
exception in the bank extractor falls through to the outer handler;
single-page uses the step-4 payload directly. -/
def bankBranch (env : Env) (outJson : PyPath) (initialData : List (String × Json))
    (isMulti : Bool) (r : ProcResult) : ProcResult :=
  if isMulti then
    let r3 := { r with bankCalled := true }
    match env.bankText with
    | Except.error _ => r3
    | Except.ok fullText => bankDeep env outJson initialData fullText r3
  else
    emit env outJson { r with finalJson := initialData }

/-- Step 5 and step 6 of process_single_document (lines 104-151): dispatch
on the returned label; any label other than bank_statement or simple_text
leaves final_json_output as the empty dict, so the save is skipped. -/
def stage5 (env : Env) (fileName : String) (outJson : PyPath) (text : String)
    (isMulti : Bool) (r2 : ProcResult) : ProcResult :=
  let cls := classify_and_extract_with_gemini text env.geminiResp
  if cls.1 = "bank_statement" then
    bankBranch env outJson cls.2 isMulti r2
  else if cls.1 = "simple_text" then
    emit env outJson
      { r2 with finalJson := [("file_name", Json.str fileName), ("extracted_text", Json.str text)] }
  else
    emit env outJson r2

/-- Steps 3 onward once the primary text is in hand (lines 88-151): the
degraded-empty branch when the text is empty or whitespace-only, the
classification and emission otherwise. -/
def afterText (env : Env) (fileName : String) (outJson : PyPath)
    (isMulti : Bool) (text : String) (r1 : ProcResult) : ProcResult :=
  if text = "" ∨ pyStrip text = "" then emptyTextResult env fileName outJson r1
  else stage5 env fileName outJson text isMulti { r1 with classifierCalled := true }

/-- The try block of process_single_document (lines 66-152).  An exception
at any stage is caught by the outer handler, so the function always
produces the record of effects that happened before it. -/
def tryBody (env : Env) (fileName : String) (outJson : PyPath)
    (r0 : ProcResult) : ProcResult :=
  match env.convert with
  | Except.error _ => r0
  | Except.ok none => r0
  | Except.ok (some _) =>
    if env.convertedExists then
      let pageCount := get_pdf_page_count env.fitzPages
      let isMulti := decide (pageCount > 1)
      let r1 := { r0 with multiPageFlag := some isMulti, textExtractCalled := true }
      match env.extractText with
      | Except.error _ => r1
      | Except.ok text => afterText env fileName outJson isMulti text r1
    else r0

/-- The finally block (lines 156-164): when the temp artifact exists it is
unlinked; an unlink failure only logs a warning and the function still
returns normally. -/
def finishCleanup (env : Env) (r : ProcResult) : ProcResult :=
  if env.tempExistsAtEnd then
    if env.unlinkOk then { r with tempAbsentAfter := true, cleanupWarned := false }
    else { r with tempAbsentAfter := false, cleanupWarned := true }
  else { r with tempAbsentAfter := true, cleanupWarned := false }

/-- try / except / finally of process_single_document, after the output
paths are derived. -/
def runBody (env : Env) (fileName : String) (sub outJson : PyPath) : ProcResult :=
  finishCleanup env (tryBody env fileName outJson (baseResult sub outJson))

/-- Output-path derivation of process_single_document (lines 52-64).
When relative_to raises, the handler assigns the bare file name, a str, to
relative_path; the very next line reads relative_path.parent, and a str has
no parent attribute, so an AttributeError escapes the function (the
try/except around the pipeline starts only at line 66). -/
def computeOutPaths (inputFile baseIn outDir : PyPath) :
    Except PyErr (PyPath × PyPath) :=
  match relativeTo inputFile baseIn with
  | some rel =>
    let sub := outDir ++ rel.dropLast
    Except.ok (sub, sub ++ [pyStem (pyName inputFile) ++ ".json"])
  | none => Except.error PyErr.attributeError

/-- process_single_document (processing.py lines 40-164).  The returned
error is the exception escaping the function; the temp-file name built at
line 64 is immaterial to any claim and its directory is dropped. -/
def process_single_document (env : Env) (inputFile baseIn outDir : PyPath) :
    Except PyErr ProcResult :=
  match computeOutPaths inputFile baseIn outDir with
  | Except.error e => Except.error e
  | Except.ok (sub, outJson) =>
    Except.ok (runBody env (pyName inputFile) sub outJson)

/-- process_folder_recursive (processing.py lines 167-226): raise ValueError
when the resolved input root is not a directory, otherwise process every
discovered file whose lowered suffix is supported.  Path resolution is the
identity here and each discovered file carries its own collaborator
values. -/
def process_folder_recursive (inputIsDir : Bool) (entries : List (PyPath × Env))
    (inputRoot outDir : PyPath) : Except PyErr (List (Except PyErr ProcResult)) :=
  if inputIsDir then
    Except.ok ((entries.filter
        (fun e => SUPPORTED_EXTENSIONS.contains (toLowerStr (pySuffix (pyName e.1))))).map
      (fun e => process_single_document e.2 e.1 inputRoot outDir))
  else Except.error PyErr.valueError

/-- Modelled from the spec: the In-Flight Registry of sections 3 and 4.3 is
absent from the source (src has only the batch driver; the watcher in
app/main.py is commented out).  The registry state is the set of claimed
paths together with the paths whose pipeline run is currently executing;
exclusive access makes each event one atomic step. -/
structure Registry where
  inFlight : List String
  running : List String

/-- Modelled from the spec: a worker claiming a path, or a pipeline run
terminating (success or failure) and releasing its path. -/
inductive RegEv where
  | claim (p : String)
  | finish (p : String)

/-- Modelled from the spec: the atomic check-and-insert of section 4.3. A
claim of a path already in flight is abandoned without error and changes
nothing; a successful claim enters the pipeline; a finish removes the path
from the registry only after the run terminates. -/
def regStep (s : Registry) (e : RegEv) : Registry :=
  match e with
  | RegEv.claim p =>
    if p ∈ s.inFlight then s
    else { inFlight := p :: s.inFlight, running := p :: s.running }
  | RegEv.finish p =>
    { inFlight := s.inFlight.erase p, running := s.running.erase p }

/-- Modelled from the spec: the registry produced by a sequence of
interleaved claim and finish events starting from the empty registry. -/
def regExec (evs : List RegEv) : Registry :=
  evs.foldl regStep { inFlight := [], running := [] }

/-- Invariant tying the registry lists together: no duplicate claims, and
every running pipeline holds a claim. -/
def RegInv (s : Registry) : Prop :=
  s.inFlight.Nodup ∧ s.running.Nodup ∧ ∀ p ∈ s.running, p ∈ s.inFlight

/-- A decoded classifier reply carrying a fully valid bank_statement
payload, for concrete runs. -/
def bankResp : Json :=
  Json.obj [("document_type", Json.str "bank_statement"),
    ("extracted_data", Json.obj [("account_holder", Json.obj []),
      ("bank_details", Json.obj []), ("account_summary", Json.obj []),
      ("transactions", Json.arr [])])]

/-- A decoded classifier reply carrying a valid challan payload, for
concrete runs. -/
def challanResp : Json :=
  Json.obj [("document_type", Json.str "challan"),
    ("extracted_data", Json.obj [("challan_number", Json.str "1"),
      ("challan_date", Json.str "2024-01-01"), ("challan_type", Json.str "delivery"),
      ("vendor", Json.obj []), ("buyer", Json.obj []), ("items", Json.arr [])])]

/-- A decoded classifier reply labelled bank_statement whose payload has a
transactions list but none of the other fields the schema requires. -/
def partialBankResp : Json :=
  Json.obj [("document_type", Json.str "bank_statement"),
    ("extracted_data", Json.obj [("transactions", Json.arr [])])]

/-- A collaborator assignment in which every stage succeeds: conversion
lands, the PDF has one page, text comes back non-empty, the classifier sees
a valid bank statement, the bank text and deep extraction succeed, writes
succeed, and the temp artifact exists and unlinks. -/
def okEnv : Env :=
  { convert := Except.ok (some "tmp.pdf"), convertedExists := true,
    fitzPages := some 1, extractText := Except.ok "hello world",
    geminiResp := some bankResp, bankText := Except.ok "full bank text",
    deepResp := some (Json.obj [("transactions", Json.arr [Json.obj []])]),
    writeOk := true, tempExistsAtEnd := true, unlinkOk := true }

theorem validateBranch_nonObj (l : String) (payload : Json) (content : String)
    (h : ∀ kvs, payload ≠ Json.obj kvs) :
    validateBranch l payload content = ("simple_text", fallbackPayload content) := by
  cases payload
  case obj kvs => exact absurd rfl (h kvs)
  all_goals
    simp only [validateBranch, checkRequired]
    split_ifs <;> rfl

/-- C1 (amended): for every input text and every decoded classifier reply
that fails the validation the code performs for its returned label — JSON
decode failure, reply or payload not a mapping, a non-string label, an
unknown label, a missing schema-required field for purchase_invoice /
sales_invoice / receipt / purchase_order / challan, a missing
extracted_text for simple_text, or transactions not a list for
bank_statement — classify_and_extract_with_gemini returns exactly the pair
(simple_text, extracted_text ↦ the original full untruncated input text);
the embedding is a total function, mirroring the handler that converts
every exception into this same pair. -/
theorem c1_fallback (content : String) (resp : Option Json)
    (h : respFailsValidation resp = true) :
    classify_and_extract_with_gemini content resp
      = ("simple_text", fallbackPayload content) := by
  cases resp with
  | none => rfl
  | some j =>
    simp only [respFailsValidation] at h
    simp only [classify_and_extract_with_gemini]
    rcases hl : returnedLabel j with _ | l
    · simp [hl]
    · simp only [hl] at h
      simp only [hl]
      rcases hp : returnedPayload j with _ | b | n | s | xs | kvs
      case null => exact validateBranch_nonObj _ _ _ (fun kvs hk => Json.noConfusion hk)
      case bool => exact validateBranch_nonObj _ _ _ (fun kvs hk => Json.noConfusion hk)
      case num => exact validateBranch_nonObj _ _ _ (fun kvs hk => Json.noConfusion hk)
      case str => exact validateBranch_nonObj _ _ _ (fun kvs hk => Json.noConfusion hk)
      case arr => exact validateBranch_nonObj _ _ _ (fun kvs hk => Json.noConfusion hk)
      case obj =>
        rw [hp] at h
        by_cases h1 : l = "purchase_invoice"
        · subst h1
          have h9 : (!(PURCHASE_INVOICE_required.all fun k => (List.lookup k kvs).isSome)) = true := h
          cases hb : PURCHASE_INVOICE_required.all fun k => (List.lookup k kvs).isSome with
          | true => rw [hb] at h9; exact Bool.noConfusion h9
          | false => simp [validateBranch, checkRequired, hb]
        · by_cases h2 : l = "sales_invoice"
          · subst h2
            have h9 : (!(SALES_INVOICE_required.all fun k => (List.lookup k kvs).isSome)) = true := h
            cases hb : SALES_INVOICE_required.all fun k => (List.lookup k kvs).isSome with
            | true => rw [hb] at h9; exact Bool.noConfusion h9
            | false => simp [validateBranch, checkRequired, hb]
          · by_cases h3 : l = "receipt"
            · subst h3
              have h9 : (!(RECEIPT_required.all fun k => (List.lookup k kvs).isSome)) = true := h
              cases hb : RECEIPT_required.all fun k => (List.lookup k kvs).isSome with
              | true => rw [hb] at h9; exact Bool.noConfusion h9
              | false => simp [validateBranch, checkRequired, hb]
            · by_cases h4 : l = "purchase_order"
              · subst h4
                have h9 : (!(PURCHASE_ORDER_required.all fun k => (List.lookup k kvs).isSome)) = true := h
                cases hb : PURCHASE_ORDER_required.all fun k => (List.lookup k kvs).isSome with
                | true => rw [hb] at h9; exact Bool.noConfusion h9
                | false => simp [validateBranch, checkRequired, hb]
              · by_cases h5 : l = "challan"
                · subst h5
                  have h9 : (!(CHALLAN_required.all fun k => (List.lookup k kvs).isSome)) = true := h
                  cases hb : CHALLAN_required.all fun k => (List.lookup k kvs).isSome with
                  | true => rw [hb] at h9; exact Bool.noConfusion h9
                  | false => simp [validateBranch, checkRequired, hb]
                · by_cases h6 : l = "bank_statement"
                  · subst h6
                    have h9 : (!(isJsonArr (List.lookup "transactions" kvs))) = true := h
                    cases hb : isJsonArr (List.lookup "transactions" kvs) with
                    | true => rw [hb] at h9; exact Bool.noConfusion h9
                    | false => simp [validateBranch, hb]
                  · by_cases h7 : l = "simple_text"
                    · subst h7
                      have h9 : (!((List.lookup "extracted_text" kvs).isSome)) = true := h
                      cases hb : (List.lookup "extracted_text" kvs) with
                      | some v => rw [hb] at h9; exact Bool.noConfusion h9
                      | none => simp [validateBranch, hb]
                    · simp [validateBranch, h1, h2, h3, h4, h5, h6, h7]

/-- C1 counterexample to the claim as stated: a reply labelled
bank_statement whose payload misses account_holder — a field the schema
requires for that label, so the claim counts the reply as failing
validation — is returned as a partially populated bank_statement payload,
not as the simple_text fallback pair. -/
theorem c1_counterexample :
    classify_and_extract_with_gemini "orig" (some partialBankResp)
      = ("bank_statement", [("transactions", Json.arr [])]) ∧
    classify_and_extract_with_gemini "orig" (some partialBankResp)
      ≠ ("simple_text", fallbackPayload "orig") ∧
    "account_holder" ∈ BANK_STATEMENT_required ∧
    List.lookup "account_holder" [("transactions", Json.arr [])] = (none : Option Json) := by
  refine ⟨rfl, ?_, by decide, rfl⟩
  intro hcontra
  have hfst : ("bank_statement" : String) = "simple_text" := congrArg Prod.fst hcontra
  exact absurd hfst (by decide)

/-- C1 witness: a reply that is not a JSON object fails validation and the
theorem yields the exact fallback pair. -/
theorem c1_witness :
    respFailsValidation (some (Json.str "oops")) = true ∧
    classify_and_extract_with_gemini "orig" (some (Json.str "oops"))
      = ("simple_text", fallbackPayload "orig") :=
  ⟨rfl, c1_fallback "orig" (some (Json.str "oops")) rfl⟩

theorem emit_mkdirOn (env : Env) (oj : PyPath) (r : ProcResult) :
    (emit env oj r).mkdirOn = r.mkdirOn := by
  unfold emit; split_ifs <;> rfl

theorem emit_outPath (env : Env) (oj : PyPath) (r : ProcResult) :
    (emit env oj r).outPath = r.outPath := by
  unfold emit; split_ifs <;> rfl

theorem emit_textExtractCalled (env : Env) (oj : PyPath) (r : ProcResult) :
    (emit env oj r).textExtractCalled = r.textExtractCalled := by
  unfold emit; split_ifs <;> rfl

theorem emit_classifierCalled (env : Env) (oj : PyPath) (r : ProcResult) :
    (emit env oj r).classifierCalled = r.classifierCalled := by
  unfold emit; split_ifs <;> rfl

theorem emit_bankCalled (env : Env) (oj : PyPath) (r : ProcResult) :
    (emit env oj r).bankCalled = r.bankCalled := by
  unfold emit; split_ifs <;> rfl

theorem emit_deepCalled (env : Env) (oj : PyPath) (r : ProcResult) :
    (emit env oj r).deepCalled = r.deepCalled := by
  unfold emit; split_ifs <;> rfl

theorem emit_multiPageFlag (env : Env) (oj : PyPath) (r : ProcResult) :
    (emit env oj r).multiPageFlag = r.multiPageFlag := by
  unfold emit; split_ifs <;> rfl

theorem emit_finalJson (env : Env) (oj : PyPath) (r : ProcResult) :
    (emit env oj r).finalJson = r.finalJson := by
  unfold emit; split_ifs <;> rfl

theorem emit_written_skip (env : Env) (oj : PyPath) (r : ProcResult)
    (h : r.finalJson = []) : (emit env oj r).written = r.written := by
  unfold emit; rw [h]; rfl

theorem emit_written_target (env : Env) (oj : PyPath) (r : ProcResult)
    (h : ∀ pj ∈ r.written, pj.1 = oj) :
    ∀ pj ∈ (emit env oj r).written, pj.1 = oj := by
  unfold emit
  split_ifs
  · exact h
  · intro pj hpj
    simp only [Option.mem_def, Option.some.injEq] at hpj
    rw [← hpj]
  · exact h

theorem finishCleanup_written (env : Env) (r : ProcResult) :
    (finishCleanup env r).written = r.written := by
  unfold finishCleanup; split_ifs <;> rfl

theorem finishCleanup_mkdirOn (env : Env) (r : ProcResult) :
    (finishCleanup env r).mkdirOn = r.mkdirOn := by
  unfold finishCleanup; split_ifs <;> rfl

theorem finishCleanup_outPath (env : Env) (r : ProcResult) :
    (finishCleanup env r).outPath = r.outPath := by
  unfold finishCleanup; split_ifs <;> rfl

theorem finishCleanup_textExtractCalled (env : Env) (r : ProcResult) :
    (finishCleanup env r).textExtractCalled = r.textExtractCalled := by
  unfold finishCleanup; split_ifs <;> rfl

theorem finishCleanup_classifierCalled (env : Env) (r : ProcResult) :
    (finishCleanup env r).classifierCalled = r.classifierCalled := by
  unfold finishCleanup; split_ifs <;> rfl

theorem finishCleanup_bankCalled (env : Env) (r : ProcResult) :
    (finishCleanup env r).bankCalled = r.bankCalled := by
  unfold finishCleanup; split_ifs <;> rfl

theorem finishCleanup_deepCalled (env : Env) (r : ProcResult) :
    (finishCleanup env r).deepCalled = r.deepCalled := by
  unfold finishCleanup; split_ifs <;> rfl

theorem finishCleanup_multiPageFlag (env : Env) (r : ProcResult) :
    (finishCleanup env r).multiPageFlag = r.multiPageFlag := by
  unfold finishCleanup; split_ifs <;> rfl

theorem finishCleanup_finalJson (env : Env) (r : ProcResult) :
    (finishCleanup env r).finalJson = r.finalJson := by
  unfold finishCleanup; split_ifs <;> rfl

theorem emptyTextResult_multiPageFlag (env : Env) (fn : String) (oj : PyPath) (r : ProcResult) :
    (emptyTextResult env fn oj r).multiPageFlag = r.multiPageFlag := by
  unfold emptyTextResult; split_ifs <;> rfl

theorem emptyTextResult_textExtractCalled (env : Env) (fn : String) (oj : PyPath) (r : ProcResult) :
    (emptyTextResult env fn oj r).textExtractCalled = r.textExtractCalled := by
  unfold emptyTextResult; split_ifs <;> rfl

theorem emptyTextResult_mkdirOn (env : Env) (fn : String) (oj : PyPath) (r : ProcResult) :
    (emptyTextResult env fn oj r).mkdirOn = r.mkdirOn := by
  unfold emptyTextResult; split_ifs <;> rfl

theorem emptyTextResult_outPath (env : Env) (fn : String) (oj : PyPath) (r : ProcResult) :
    (emptyTextResult env fn oj r).outPath = r.outPath := by
  unfold emptyTextResult; split_ifs <;> rfl

theorem emptyTextResult_written_target (env : Env) (fn : String) (oj : PyPath) (r : ProcResult)
    (h : ∀ pj ∈ r.written, pj.1 = oj) :
    ∀ pj ∈ (emptyTextResult env fn oj r).written, pj.1 = oj := by
  unfold emptyTextResult
  split_ifs
  · intro pj hpj
    simp only [Option.mem_def, Option.some.injEq] at hpj
    rw [← hpj]
  · exact h

theorem bankDeep_multiPageFlag (env : Env) (oj : PyPath) (init : List (String × Json))
    (ft : String) (r3 : ProcResult) :
    (bankDeep env oj init ft r3).multiPageFlag = r3.multiPageFlag := by
  unfold bankDeep; split_ifs <;> simp [emit_multiPageFlag]

theorem bankDeep_textExtractCalled (env : Env) (oj : PyPath) (init : List (String × Json))
    (ft : String) (r3 : ProcResult) :
    (bankDeep env oj init ft r3).textExtractCalled = r3.textExtractCalled := by
  unfold bankDeep; split_ifs <;> simp [emit_textExtractCalled]

theorem bankDeep_mkdirOn (env : Env) (oj : PyPath) (init : List (String × Json))
    (ft : String) (r3 : ProcResult) :
    (bankDeep env oj init ft r3).mkdirOn = r3.mkdirOn := by
  unfold bankDeep; split_ifs <;> simp [emit_mkdirOn]

theorem bankDeep_outPath (env : Env) (oj : PyPath) (init : List (String × Json))
    (ft : String) (r3 : ProcResult) :
    (bankDeep env oj init ft r3).outPath = r3.outPath := by
  unfold bankDeep; split_ifs <;> simp [emit_outPath]

theorem bankDeep_written_target (env : Env) (oj : PyPath) (init : List (String × Json))
    (ft : String) (r3 : ProcResult)
    (h : ∀ pj ∈ r3.written, pj.1 = oj) :
    ∀ pj ∈ (bankDeep env oj init ft r3).written, pj.1 = oj := by
  unfold bankDeep
  split_ifs
  · exact emit_written_target env oj _ h
  · exact emit_written_target env oj _ h

theorem bankBranch_multiPageFlag (env : Env) (oj : PyPath) (init : List (String × Json))
    (isMulti : Bool) (r : ProcResult) :
    (bankBranch env oj init isMulti r).multiPageFlag = r.multiPageFlag := by
  unfold bankBranch
  cases isMulti
  · simp [emit_multiPageFlag]
  · cases hbt : env.bankText with
    | error e => simp [hbt]
    | ok ft => simp [hbt, bankDeep_multiPageFlag]

theorem bankBranch_textExtractCalled (env : Env) (oj : PyPath) (init : List (String × Json))
    (isMulti : Bool) (r : ProcResult) :
    (bankBranch env oj init isMulti r).textExtractCalled = r.textExtractCalled := by
  unfold bankBranch
  cases isMulti
  · simp [emit_textExtractCalled]
  · cases hbt : env.bankText with
    | error e => simp [hbt]
    | ok ft => simp [hbt, bankDeep_textExtractCalled]

theorem bankBranch_mkdirOn (env : Env) (oj : PyPath) (init : List (String × Json))
    (isMulti : Bool) (r : ProcResult) :
    (bankBranch env oj init isMulti r).mkdirOn = r.mkdirOn := by
  unfold bankBranch
  cases isMulti
  · simp [emit_mkdirOn]
  · cases hbt : env.bankText with
    | error e => simp [hbt]
    | ok ft => simp [hbt, bankDeep_mkdirOn]

theorem bankBranch_outPath (env : Env) (oj : PyPath) (init : List (String × Json))
    (isMulti : Bool) (r : ProcResult) :
    (bankBranch env oj init isMulti r).outPath = r.outPath := by
  unfold bankBranch
  cases isMulti
  · simp [emit_outPath]
  · cases hbt : env.bankText with
    | error e => simp [hbt]
    | ok ft => simp [hbt, bankDeep_outPath]

theorem bankBranch_written_target (env : Env) (oj : PyPath) (init : List (String × Json))
    (isMulti : Bool) (r : ProcResult)
    (h : ∀ pj ∈ r.written, pj.1 = oj) :
    ∀ pj ∈ (bankBranch env oj init isMulti r).written, pj.1 = oj := by
  intro pj hpj
  unfold bankBranch at hpj
  cases isMulti
  · exact emit_written_target env oj { r with finalJson := init } h pj hpj
  · rcases hbt : env.bankText with e | ft
    · rw [hbt] at hpj
      exact h pj hpj
    · rw [hbt] at hpj
      exact bankDeep_written_target env oj init ft { r with bankCalled := true } h pj hpj

theorem stage5_multiPageFlag (env : Env) (fn : String) (oj : PyPath) (text : String)
    (isMulti : Bool) (r : ProcResult) :
    (stage5 env fn oj text isMulti r).multiPageFlag = r.multiPageFlag := by
  by_cases hc1 : (classify_and_extract_with_gemini text env.geminiResp).1 = "bank_statement"
  · simp [stage5, hc1, bankBranch_multiPageFlag]
  · by_cases hc2 : (classify_and_extract_with_gemini text env.geminiResp).1 = "simple_text" <;>
      simp [stage5, hc1, hc2, emit_multiPageFlag]

theorem stage5_textExtractCalled (env : Env) (fn : String) (oj : PyPath) (text : String)
    (isMulti : Bool) (r : ProcResult) :
    (stage5 env fn oj text isMulti r).textExtractCalled = r.textExtractCalled := by
  by_cases hc1 : (classify_and_extract_with_gemini text env.geminiResp).1 = "bank_statement"
  · simp [stage5, hc1, bankBranch_textExtractCalled]
  · by_cases hc2 : (classify_and_extract_with_gemini text env.geminiResp).1 = "simple_text" <;>
      simp [stage5, hc1, hc2, emit_textExtractCalled]

theorem stage5_mkdirOn (env : Env) (fn : String) (oj : PyPath) (text : String)
    (isMulti : Bool) (r : ProcResult) :
    (stage5 env fn oj text isMulti r).mkdirOn = r.mkdirOn := by
  by_cases hc1 : (classify_and_extract_with_gemini text env.geminiResp).1 = "bank_statement"
  · simp [stage5, hc1, bankBranch_mkdirOn]
  · by_cases hc2 : (classify_and_extract_with_gemini text env.geminiResp).1 = "simple_text" <;>
      simp [stage5, hc1, hc2, emit_mkdirOn]

theorem stage5_outPath (env : Env) (fn : String) (oj : PyPath) (text : String)
    (isMulti : Bool) (r : ProcResult) :
    (stage5 env fn oj text isMulti r).outPath = r.outPath := by
  by_cases hc1 : (classify_and_extract_with_gemini text env.geminiResp).1 = "bank_statement"
  · simp [stage5, hc1, bankBranch_outPath]
  · by_cases hc2 : (classify_and_extract_with_gemini text env.geminiResp).1 = "simple_text" <;>
      simp [stage5, hc1, hc2, emit_outPath]

theorem stage5_written_target (env : Env) (fn : String) (oj : PyPath) (text : String)
    (isMulti : Bool) (r : ProcResult)
    (h : ∀ pj ∈ r.written, pj.1 = oj) :
    ∀ pj ∈ (stage5 env fn oj text isMulti r).written, pj.1 = oj := by
  intro pj hpj
  unfold stage5 at hpj
  by_cases hc1 : (classify_and_extract_with_gemini text env.geminiResp).1 = "bank_statement"
  · rw [if_pos hc1] at hpj
    exact bankBranch_written_target env oj _ isMulti r h pj hpj
  · rw [if_neg hc1] at hpj
    by_cases hc2 : (classify_and_extract_with_gemini text env.geminiResp).1 = "simple_text"
    · rw [if_pos hc2] at hpj
      exact emit_written_target env oj
        { r with finalJson := [("file_name", Json.str fn), ("extracted_text", Json.str text)] }
        h pj hpj
    · rw [if_neg hc2] at hpj
      exact emit_written_target env oj r h pj hpj

theorem afterText_mkdirOn (env : Env) (n : String) (oj : PyPath) (isMulti : Bool)
    (text : String) (r1 : ProcResult) :
    (afterText env n oj isMulti text r1).mkdirOn = r1.mkdirOn := by
  unfold afterText
  split_ifs
  · simp [emptyTextResult_mkdirOn]
  · simp [stage5_mkdirOn]

theorem afterText_outPath (env : Env) (n : String) (oj : PyPath) (isMulti : Bool)
    (text : String) (r1 : ProcResult) :
    (afterText env n oj isMulti text r1).outPath = r1.outPath := by
  unfold afterText
  split_ifs
  · simp [emptyTextResult_outPath]
  · simp [stage5_outPath]

theorem afterText_written_target (env : Env) (n : String) (oj : PyPath) (isMulti : Bool)
    (text : String) (r1 : ProcResult)
    (h : ∀ pj ∈ r1.written, pj.1 = oj) :
    ∀ pj ∈ (afterText env n oj isMulti text r1).written, pj.1 = oj := by
  intro pj hpj
  unfold afterText at hpj
  by_cases hemp : text = "" ∨ pyStrip text = ""
  · rw [if_pos hemp] at hpj
    exact emptyTextResult_written_target env n oj r1 h pj hpj
  · rw [if_neg hemp] at hpj
    exact stage5_written_target env n oj text isMulti { r1 with classifierCalled := true } h pj hpj

theorem tryBody_mkdirOn (env : Env) (n : String) (oj : PyPath) (r0 : ProcResult) :
    (tryBody env n oj r0).mkdirOn = r0.mkdirOn := by
  unfold tryBody
  rcases hc : env.convert with e | o
  · rfl
  · cases o with
    | none => rfl
    | some p =>
      cases hex : env.convertedExists
      · simp
      · rcases het : env.extractText with e | text
        · simp [het]
        · simp [het, afterText_mkdirOn]

theorem tryBody_outPath (env : Env) (n : String) (oj : PyPath) (r0 : ProcResult) :
    (tryBody env n oj r0).outPath = r0.outPath := by
  unfold tryBody
  rcases hc : env.convert with e | o
  · rfl
  · cases o with
    | none => rfl
    | some p =>
      cases hex : env.convertedExists
      · simp
      · rcases het : env.extractText with e | text
        · simp [het]
        · simp [het, afterText_outPath]

theorem tryBody_written_target (env : Env) (n : String) (oj : PyPath) (r0 : ProcResult)
    (h : ∀ pj ∈ r0.written, pj.1 = oj) :
    ∀ pj ∈ (tryBody env n oj r0).written, pj.1 = oj := by
  intro pj hpj
  unfold tryBody at hpj
  rcases hc : env.convert with e | o
  · rw [hc] at hpj
    exact h pj hpj
  · rw [hc] at hpj
    cases o with
    | none => exact h pj hpj
    | some p =>
      cases hex : env.convertedExists
      · rw [hex] at hpj
        exact h pj hpj
      · rw [hex] at hpj
        rcases het : env.extractText with e | text
        · rw [het] at hpj
          exact h pj hpj
        · rw [het] at hpj
          exact afterText_written_target env n oj
            (decide (get_pdf_page_count env.fitzPages > 1)) text
            ({ r0 with
                multiPageFlag := some (decide (get_pdf_page_count env.fitzPages > 1)),
                textExtractCalled := true }) h pj hpj

theorem afterText_multiPageFlag (env : Env) (n : String) (oj : PyPath) (isMulti : Bool)
    (text : String) (r1 : ProcResult) :
    (afterText env n oj isMulti text r1).multiPageFlag = r1.multiPageFlag := by
  unfold afterText
  split_ifs
  · simp [emptyTextResult_multiPageFlag]
  · simp [stage5_multiPageFlag]

theorem afterText_textExtractCalled (env : Env) (n : String) (oj : PyPath) (isMulti : Bool)
    (text : String) (r1 : ProcResult) :
    (afterText env n oj isMulti text r1).textExtractCalled = r1.textExtractCalled := by
  unfold afterText
  split_ifs
  · simp [emptyTextResult_textExtractCalled]
  · simp [stage5_textExtractCalled]

/-- C2: for every document whose validated classification label is one of
purchase_invoice, sales_invoice, receipt, purchase_order, challan,
process_single_document has no branch for the label: final_json_output
stays the empty dict and no output file is written — the validated payload
is silently discarded. -/
theorem c2_payload_discarded (env : Env) (inputFile baseIn outDir sub outJson : PyPath)
    (cpath t : String)
    (hpaths : computeOutPaths inputFile baseIn outDir = Except.ok (sub, outJson))
    (hconv : env.convert = Except.ok (some cpath))
    (hex : env.convertedExists = true)
    (htext : env.extractText = Except.ok t)
    (hne : ¬(t = "" ∨ pyStrip t = ""))
    (hlabel : (classify_and_extract_with_gemini t env.geminiResp).1 ∈
      ["purchase_invoice", "sales_invoice", "receipt", "purchase_order", "challan"]) :
    ∃ r, process_single_document env inputFile baseIn outDir = Except.ok r ∧
      r.finalJson = [] ∧ r.written = none := by
  have hb : (classify_and_extract_with_gemini t env.geminiResp).1 ≠ "bank_statement" := by
    simp only [List.mem_cons, List.mem_singleton, List.not_mem_nil, or_false] at hlabel
    rcases hlabel with h | h | h | h | h <;> (rw [h]; decide)
  have hs : (classify_and_extract_with_gemini t env.geminiResp).1 ≠ "simple_text" := by
    simp only [List.mem_cons, List.mem_singleton, List.not_mem_nil, or_false] at hlabel
    rcases hlabel with h | h | h | h | h <;> (rw [h]; decide)
  unfold process_single_document
  rw [hpaths]
  refine ⟨_, rfl, ?_, ?_⟩ <;>
  · unfold runBody
    simp only [finishCleanup_finalJson, finishCleanup_written]
    simp [tryBody, hconv, hex, htext, afterText, if_neg hne, stage5, hb, hs,
      emit_finalJson, emit_written_skip, baseResult]

/-- C4: a run whose primary text extraction yields empty or whitespace-only
text writes exactly the two-key placeholder record (source file name and
the empty string), never reaches the classifier, and ends that document's
pipeline. -/
theorem c4_degraded_empty (env : Env) (inputFile baseIn outDir sub outJson : PyPath)
    (cpath t : String)
    (hpaths : computeOutPaths inputFile baseIn outDir = Except.ok (sub, outJson))
    (hconv : env.convert = Except.ok (some cpath))
    (hex : env.convertedExists = true)
    (htext : env.extractText = Except.ok t)
    (hempty : t = "" ∨ pyStrip t = "")
    (hwrite : env.writeOk = true) :
    ∃ r, process_single_document env inputFile baseIn outDir = Except.ok r ∧
      r.written = some (outJson,
        Json.obj [("file_name", Json.str (pyName inputFile)), ("extracted_text", Json.str "")]) ∧
      r.classifierCalled = false ∧ r.bankCalled = false ∧ r.deepCalled = false := by
  unfold process_single_document
  rw [hpaths]
  refine ⟨_, rfl, ?_, ?_, ?_, ?_⟩ <;>
  · unfold runBody
    simp only [finishCleanup_written, finishCleanup_classifierCalled,
      finishCleanup_bankCalled, finishCleanup_deepCalled]
    simp [tryBody, hconv, hex, htext, afterText, if_pos hempty, emptyTextResult,
      hwrite, baseResult]

/-- C3 counterexample to the claim as stated: a document classified as
bank_statement with a page count of 2 (multi-page) for which the
specialized bank text extraction returns the empty string: the run reaches
the bank-text extractor but the DeepExtractor is never called, refuting
"with is_multi_page = true it is called". -/
theorem c3_counterexample :
    (classify_and_extract_with_gemini "hello world" okEnv.geminiResp).1 = "bank_statement" ∧
    1 < get_pdf_page_count (some 2) ∧
    (process_single_document { okEnv with fitzPages := some 2, bankText := Except.ok "" }
        ["in", "f.pdf"] ["in"] ["out"]).map (fun r => (r.bankCalled, r.deepCalled))
      = Except.ok (true, false) :=
  ⟨rfl, by decide, rfl⟩

/-- C3 (amended): deep extraction is gated on label, page count and the
specialized extraction's text: for a validated bank_statement label,
single-page runs never reach the bank-text extractor or the DeepExtractor
and keep the step-4 payload; multi-page runs invoke the bank-text
extractor, call the DeepExtractor exactly when that extraction is
non-empty after stripping, and the final payload equals the step-4 payload
whenever the specialized extraction is empty/whitespace or the
DeepExtractor returns an empty result. -/
theorem c3_deep_extraction_gating (env : Env) (inputFile baseIn outDir sub outJson : PyPath)
    (cpath t bt : String)
    (hpaths : computeOutPaths inputFile baseIn outDir = Except.ok (sub, outJson))
    (hconv : env.convert = Except.ok (some cpath))
    (hex : env.convertedExists = true)
    (htext : env.extractText = Except.ok t)
    (hne : ¬(t = "" ∨ pyStrip t = ""))
    (hlabel : (classify_and_extract_with_gemini t env.geminiResp).1 = "bank_statement")
    (hbank : env.bankText = Except.ok bt) :
    ∃ r, process_single_document env inputFile baseIn outDir = Except.ok r ∧
      (get_pdf_page_count env.fitzPages ≤ 1 →
        r.bankCalled = false ∧ r.deepCalled = false ∧
        r.finalJson = (classify_and_extract_with_gemini t env.geminiResp).2) ∧
      (1 < get_pdf_page_count env.fitzPages →
        r.bankCalled = true ∧
        (r.deepCalled = true ↔ ¬(bt = "" ∨ pyStrip bt = "")) ∧
        ((bt = "" ∨ pyStrip bt = "" ∨
            extract_full_bank_statement_with_gemini env.deepResp = []) →
          r.finalJson = (classify_and_extract_with_gemini t env.geminiResp).2)) := by
  unfold process_single_document
  rw [hpaths]
  refine ⟨_, rfl, ?_, ?_⟩
  · intro hle
    have hdec : decide (get_pdf_page_count env.fitzPages > 1) = false :=
      decide_eq_false (Nat.not_lt.mpr hle)
    unfold runBody
    simp only [finishCleanup_bankCalled, finishCleanup_deepCalled, finishCleanup_finalJson]
    simp [tryBody, hconv, hex, htext, afterText, if_neg hne, hdec, stage5, hlabel,
      bankBranch, emit_bankCalled, emit_deepCalled, emit_finalJson, baseResult]
  · intro hlt
    have hdec : decide (get_pdf_page_count env.fitzPages > 1) = true := decide_eq_true hlt
    unfold runBody
    simp only [finishCleanup_bankCalled, finishCleanup_deepCalled, finishCleanup_finalJson]
    by_cases hft : ¬bt = "" ∧ ¬pyStrip bt = ""
    · refine ⟨?_, ?_, ?_⟩
      · simp [tryBody, hconv, hex, htext, afterText, if_neg hne, hdec, stage5, hlabel,
          bankBranch, bankDeep, hbank, hft, emit_bankCalled]
      · simp [tryBody, hconv, hex, htext, afterText, if_neg hne, hdec, stage5, hlabel,
          bankBranch, bankDeep, hbank, hft, emit_deepCalled]
      · intro hfb
        rcases hfb with h | h | h
        · exact absurd h hft.1
        · exact absurd h hft.2
        · simp [tryBody, hconv, hex, htext, afterText, if_neg hne, hdec, stage5, hlabel,
            bankBranch, bankDeep, hbank, hft, emit_finalJson, h]
    · refine ⟨?_, ?_, ?_⟩
      · simp [tryBody, hconv, hex, htext, afterText, if_neg hne, hdec, stage5, hlabel,
          bankBranch, bankDeep, hbank, hft, emit_bankCalled]
      · simp [tryBody, hconv, hex, htext, afterText, if_neg hne, hdec, stage5, hlabel,
          bankBranch, bankDeep, hbank, hft, emit_deepCalled, baseResult]
      · intro hfb
        simp [tryBody, hconv, hex, htext, afterText, if_neg hne, hdec, stage5, hlabel,
          bankBranch, bankDeep, hbank, hft, emit_finalJson]

/-- C10: a page count that cannot be read is reported as 0 by
get_pdf_page_count, and the run carries on non-fatally under the
single-page assumption (0 > 1 is false): the multi-page flag is false and
the primary text extraction stage is still reached. -/
theorem c10_page_count_fallback (env : Env) (inputFile baseIn outDir sub outJson : PyPath)
    (cpath : String)
    (hpaths : computeOutPaths inputFile baseIn outDir = Except.ok (sub, outJson))
    (hconv : env.convert = Except.ok (some cpath))
    (hex : env.convertedExists = true)
    (hfitz : env.fitzPages = none) :
    get_pdf_page_count env.fitzPages = 0 ∧
    ∃ r, process_single_document env inputFile baseIn outDir = Except.ok r ∧
      r.multiPageFlag = some false ∧ r.textExtractCalled = true := by
  refine ⟨by rw [hfitz]; rfl, ?_⟩
  unfold process_single_document
  rw [hpaths]
  refine ⟨_, rfl, ?_, ?_⟩ <;>
  · unfold runBody
    simp only [finishCleanup_multiPageFlag, finishCleanup_textExtractCalled]
    rcases het : env.extractText with e | text
    · simp [tryBody, hconv, hex, hfitz, het, get_pdf_page_count]
    · simp [tryBody, hconv, hex, hfitz, het, get_pdf_page_count,
        afterText_multiPageFlag, afterText_textExtractCalled]

/-- C8: on every exit path of the try block — normal returns, the degraded
skip, and any injected exception at any stage — the finally block runs:
the temp artifact is deleted whenever it exists and the unlink succeeds,
and an unlink failure only sets the warning, the function still returning
normally (the error is never escalated). -/
theorem c8_temp_cleanup (env : Env) (inputFile baseIn outDir sub outJson : PyPath)
    (hpaths : computeOutPaths inputFile baseIn outDir = Except.ok (sub, outJson)) :
    ∃ r, process_single_document env inputFile baseIn outDir = Except.ok r ∧
      r.tempAbsentAfter = (!env.tempExistsAtEnd || env.unlinkOk) ∧
      (env.tempExistsAtEnd = true → env.unlinkOk = false →
        r.cleanupWarned = true ∧ r.tempAbsentAfter = false) := by
  unfold process_single_document
  rw [hpaths]
  refine ⟨_, rfl, ?_, ?_⟩
  · unfold runBody finishCleanup
    cases hte : env.tempExistsAtEnd <;> cases hu : env.unlinkOk <;> simp
  · intro h1 h2
    unfold runBody finishCleanup
    simp [h1, h2]

/-- C2 witness: the classifier returns a fully valid challan; the run
completes with an empty final payload and no write. -/
theorem c2_witness :
    ∃ r, process_single_document { okEnv with geminiResp := some challanResp }
        ["in", "f.pdf"] ["in"] ["out"] = Except.ok r ∧
      r.finalJson = [] ∧ r.written = none :=
  c2_payload_discarded { okEnv with geminiResp := some challanResp }
    ["in", "f.pdf"] ["in"] ["out"] ["out"] ["out", "f.json"] "tmp.pdf" "hello world"
    rfl rfl rfl rfl (by decide) (by decide)

/-- C4 witness: the extractor returns the empty string; the placeholder
record is the only write and the classifier is never reached. -/
theorem c4_witness :
    ∃ r, process_single_document { okEnv with extractText := Except.ok "" }
        ["in", "e.pdf"] ["in"] ["out"] = Except.ok r ∧
      r.written = some (["out", "e.json"],
        Json.obj [("file_name", Json.str "e.pdf"), ("extracted_text", Json.str "")]) ∧
      r.classifierCalled = false ∧ r.bankCalled = false ∧ r.deepCalled = false :=
  c4_degraded_empty { okEnv with extractText := Except.ok "" }
    ["in", "e.pdf"] ["in"] ["out"] ["out"] ["out", "e.json"] "tmp.pdf" ""
    rfl rfl rfl rfl (Or.inl rfl) rfl

/-- C3 witness: a three-page bank statement whose specialized extraction
and deep extraction both succeed. -/
theorem c3_witness :
    ∃ r, process_single_document { okEnv with fitzPages := some 3 }
        ["in", "s.pdf"] ["in"] ["out"] = Except.ok r ∧
      (get_pdf_page_count (some 3) ≤ 1 →
        r.bankCalled = false ∧ r.deepCalled = false ∧
        r.finalJson = (classify_and_extract_with_gemini "hello world" (some bankResp)).2) ∧
      (1 < get_pdf_page_count (some 3) →
        r.bankCalled = true ∧
        (r.deepCalled = true ↔ ¬("full bank text" = "" ∨ pyStrip "full bank text" = "")) ∧
        (("full bank text" = "" ∨ pyStrip "full bank text" = "" ∨
            extract_full_bank_statement_with_gemini
              (some (Json.obj [("transactions", Json.arr [Json.obj []])])) = []) →
          r.finalJson = (classify_and_extract_with_gemini "hello world" (some bankResp)).2)) :=
  c3_deep_extraction_gating { okEnv with fitzPages := some 3 }
    ["in", "s.pdf"] ["in"] ["out"] ["out"] ["out", "s.json"] "tmp.pdf" "hello world"
    "full bank text" rfl rfl rfl rfl (by decide) rfl rfl

/-- C10 witness: an unreadable page count yields 0 and a single-page run
that still reaches text extraction. -/
theorem c10_witness :
    get_pdf_page_count ({ okEnv with fitzPages := none } : Env).fitzPages = 0 ∧
    ∃ r, process_single_document { okEnv with fitzPages := none }
        ["in", "p.pdf"] ["in"] ["out"] = Except.ok r ∧
      r.multiPageFlag = some false ∧ r.textExtractCalled = true :=
  c10_page_count_fallback { okEnv with fitzPages := none }
    ["in", "p.pdf"] ["in"] ["out"] ["out"] ["out", "p.json"] "tmp.pdf"
    rfl rfl rfl rfl

/-- C8 witness: a fully successful run still runs the finally block and the
temp artifact is gone. -/
theorem c8_witness :
    ∃ r, process_single_document okEnv ["in", "f.pdf"] ["in"] ["out"] = Except.ok r ∧
      r.tempAbsentAfter = (!okEnv.tempExistsAtEnd || okEnv.unlinkOk) ∧
      (okEnv.tempExistsAtEnd = true → okEnv.unlinkOk = false →
        r.cleanupWarned = true ∧ r.tempAbsentAfter = false) :=
  c8_temp_cleanup okEnv ["in", "f.pdf"] ["in"] ["out"] ["out"] ["out", "f.json"] rfl

/-- C5 (code bug): a file outside the declared input root.  relative_to
raises ValueError (modelled: relativeTo returns none); the handler assigns
input_file_path.name — a str — to relative_path, and the very next line
reads relative_path.parent, an attribute a str does not have, so the run
dies with an AttributeError before deriving any output path, instead of
continuing with the bare file name under the output root as the spec
describes. -/
theorem c5_outside_root_raises :
    process_single_document okEnv ["data", "doc.pdf"] ["in"] ["out"]
      = Except.error PyErr.attributeError ∧
    relativeTo ["data", "doc.pdf"] ["in"] = none :=
  ⟨rfl, rfl⟩

theorem relativeTo_append (base rest : PyPath) :
    relativeTo (base ++ rest) base = some rest := by
  induction base with
  | nil => cases rest <;> rfl
  | cons b bs ih => simp [relativeTo, ih]

theorem getLastD_append (base : PyPath) (r : String) (rs : List String) :
    ∀ d, (base ++ r :: rs).getLastD d = (r :: rs).getLastD d := by
  induction base with
  | nil => intro d; rfl
  | cons b bs ih =>
    intro d
    rw [List.cons_append, List.getLastD_cons, ih b, List.getLastD_cons, List.getLastD_cons]

/-- C6: for an input file under the input root, the run mirrors the input's
relative directory under the output root — mkdir targets the mirrored
subfolder, the derived output path replaces the extension with .json, and
every write of the run lands on that derived path. -/
theorem c6_output_path_mirroring (env : Env) (base outDir : PyPath) (r0 : String)
    (rest : List String) :
    ∃ r, process_single_document env (base ++ r0 :: rest) base outDir = Except.ok r ∧
      r.mkdirOn = outDir ++ (r0 :: rest).dropLast ∧
      r.outPath = outDir ++ (r0 :: rest).dropLast
        ++ [pyStem ((r0 :: rest).getLastD "") ++ ".json"] ∧
      (∀ pj ∈ r.written,
        pj.1 = outDir ++ (r0 :: rest).dropLast
          ++ [pyStem ((r0 :: rest).getLastD "") ++ ".json"]) := by
  have hrel : relativeTo (base ++ r0 :: rest) base = some (r0 :: rest) :=
    relativeTo_append base (r0 :: rest)
  have hname : pyName (base ++ r0 :: rest) = (r0 :: rest).getLastD "" :=
    getLastD_append base r0 rest ""
  unfold process_single_document computeOutPaths
  rw [hrel]
  unfold pyName
  rw [getLastD_append base r0 rest ""]
  refine ⟨_, rfl, ?_, ?_, ?_⟩
  · unfold runBody
    rw [finishCleanup_mkdirOn, tryBody_mkdirOn]
    rfl
  · unfold runBody
    rw [finishCleanup_outPath, tryBody_outPath]
    rfl
  · intro pj hpj
    unfold runBody at hpj
    rw [finishCleanup_written] at hpj
    exact tryBody_written_target env _ _ _
      (fun q hq => by simp [baseResult] at hq) pj hpj

/-- C6 witness: /in/a/b/c.pdf with roots /in and /out lands at
/out/a/b/c.json. -/
theorem c6_witness :
    ∃ r, process_single_document okEnv ["in", "a", "b", "c.pdf"] ["in"] ["out"] = Except.ok r ∧
      r.mkdirOn = ["out", "a", "b"] ∧
      r.outPath = ["out", "a", "b", "c.json"] ∧
      (∀ pj ∈ r.written, pj.1 = ["out", "a", "b", "c.json"]) :=
  c6_output_path_mirroring okEnv ["in"] ["out"] "a" ["b", "c.pdf"]

theorem regStep_preserves_inv (s : Registry) (e : RegEv) (h : RegInv s) :
    RegInv (regStep s e) := by
  obtain ⟨hin, hrun, hsub⟩ := h
  cases e with
  | claim p =>
    simp only [regStep]
    by_cases hp : p ∈ s.inFlight
    · rw [if_pos hp]
      exact ⟨hin, hrun, hsub⟩
    · rw [if_neg hp]
      have hpr : p ∉ s.running := fun hc => hp (hsub p hc)
      refine ⟨List.nodup_cons.mpr ⟨hp, hin⟩, List.nodup_cons.mpr ⟨hpr, hrun⟩, ?_⟩
      intro q hq
      rcases List.mem_cons.mp hq with h1 | h1
      · exact h1 ▸ List.mem_cons_self p s.inFlight
      · exact List.mem_cons_of_mem p (hsub q h1)
  | finish p =>
    simp only [regStep]
    refine ⟨hin.erase p, hrun.erase p, ?_⟩
    intro q hq
    have h2 := (List.Nodup.mem_erase_iff hrun).mp hq
    exact (List.Nodup.mem_erase_iff hin).mpr ⟨h2.1, hsub q h2.2⟩

/-- C7 (modelled from the spec, whose In-Flight Registry has no
counterpart in src): under any interleaving of claim and finish events the
registry admits at most one live pipeline run per path — the running
multiset never holds duplicates — and a claim of a path already in flight
is abandoned without error, leaving the registry unchanged. -/
theorem c7_at_most_one_claim :
    (∀ evs : List RegEv, (regExec evs).running.Nodup) ∧
    (∀ (s : Registry) (p : String), p ∈ s.inFlight → regStep s (RegEv.claim p) = s) := by
  constructor
  · have main : ∀ (evs : List RegEv) (s : Registry),
        RegInv s → RegInv (evs.foldl regStep s) := by
      intro evs
      induction evs with
      | nil => exact fun s hs => hs
      | cons e es ih => exact fun s hs => ih _ (regStep_preserves_inv s e hs)
    intro evs
    exact (main evs { inFlight := [], running := [] }
      ⟨List.nodup_nil, List.nodup_nil, fun p hp => absurd hp (List.not_mem_nil p)⟩).2.1
  · intro s p hp
    simp only [regStep]
    rw [if_pos hp]

/-- C7 witness: a duplicate claim of the same path is suppressed and the
resulting running set has no duplicates. -/
theorem c7_witness :
    (regExec [RegEv.claim "a", RegEv.claim "a", RegEv.finish "a"]).running.Nodup ∧
    regStep { inFlight := ["a"], running := ["a"] } (RegEv.claim "a")
      = { inFlight := ["a"], running := ["a"] } :=
  ⟨c7_at_most_one_claim.1 _,
   c7_at_most_one_claim.2 { inFlight := ["a"], running := ["a"] } "a" (by decide)⟩

/-- C9: the batch entry point raises the input-validation error exactly
when the resolved input root is not a directory, and in that case no
document is processed; when the root is a directory it proceeds over the
discovered files. -/
theorem c9_input_root_validation (inputIsDir : Bool) (entries : List (PyPath × Env))
    (inputRoot outDir : PyPath) :
    ((∃ e, process_folder_recursive inputIsDir entries inputRoot outDir = Except.error e) ↔
      inputIsDir = false) ∧
    (inputIsDir = false →
      process_folder_recursive inputIsDir entries inputRoot outDir
        = Except.error PyErr.valueError) := by
  cases inputIsDir <;> simp [process_folder_recursive]

/-- C9 witness: a non-directory input root raises the validation error. -/
theorem c9_witness :
    process_folder_recursive false [] [] [] = Except.error PyErr.valueError :=
  (c9_input_root_validation false [] [] []).2 rfl
